import Mathlib

/-!
Shallow embedding of `sdp.py` from the M679_Algorithms repository: the
function `optimize_sdp`, which builds the squared-distance matrix of a
caller-supplied distance oracle, formulates the Euclidean-distortion
semidefinite program, invokes an external convex solver via `prob.solve()`,
and extracts `(status, D, G, delta)`.

Floating-point arithmetic of the source is embedded as exact arithmetic
over an arbitrary linear ordered field `K` (instantiated at `ℚ` for
concrete evaluations).  The external cvxpy solver is modelled as an
explicit function argument taking a verbosity flag and the formulated
problem to a solver outcome whose numeric payloads are `Option`-valued,
exactly as the cvxpy `Variable.value` attribute is `None` until the
solver assigns a value.
-/

namespace SDP

variable {K : Type} {α : Type}

/-- Index pairs `(i, j)` visited by the nested loops
`for i in range(n): for j in range(n):` of the distance-matrix builder
(`sdp.py` lines 23-25); each visited pair performs exactly one oracle call. -/
def oracleCalls (n : ℕ) : List (ℕ × ℕ) :=
  (List.range n).flatMap fun i => (List.range n).map fun j => (i, j)

/-- One loop-body step `dist_matrix_sq[i,j] = dist_func(i,j,dist_arg)**2`
(`sdp.py` line 25): update the matrix `m` at position `p` with the squared
oracle value. -/
def fillEntry [LinearOrderedField K] (dist_func : ℕ → ℕ → α → K) (dist_arg : α)
    (m : ℕ → ℕ → K) (p : ℕ × ℕ) : ℕ → ℕ → K :=
  fun i j => if i = p.1 ∧ j = p.2 then (dist_func p.1 p.2 dist_arg) ^ 2 else m i j

/-- The distance-matrix builder: `dist_matrix_sq = np.zeros((n,n))` followed
by the nested assignment loop (`sdp.py` lines 22-25).  Matrices are total
functions on `ℕ × ℕ`; entries outside the `n × n` shape stay `0`. -/
def dist_matrix_sq [LinearOrderedField K] (n : ℕ) (dist_func : ℕ → ℕ → α → K)
    (dist_arg : α) : ℕ → ℕ → K :=
  (oracleCalls n).foldl (fillEntry dist_func dist_arg) fun _ _ => 0

/-- Values of the three cvxpy decision variables of `sdp.py` lines 28-30:
`delta = cp.Variable((n,n))`, `G = cp.Variable((n-1,n-1), PSD=True)` and the
scalar `D2`.  Matrices are total functions on `ℕ × ℕ`; the constraints only
ever reference entries inside the declared shapes. -/
structure Vars (K : Type) where
  delta : ℕ → ℕ → K
  G : ℕ → ℕ → K
  D2 : K

/-- The constraint forms occurring in the Python list `constraints`
(`sdp.py` lines 33-42): `G >> 0`, `D2 >= 0`, the elementwise matrix
inequality `dist_matrix_sq <= delta`, and for loop indices `i, j` the scalar
constraints `D2*dist_matrix_sq[i,j] >= delta[i,j]` and
`G[i-1,j-1] == 1/2*(delta[0,i]+delta[0,j]-delta[i,j])`. -/
inductive Constr : Type where
  | psdG : Constr
  | d2Nonneg : Constr
  | distLe : Constr
  | d2MulGe : ℕ → ℕ → Constr
  | gramEq : ℕ → ℕ → Constr
deriving DecidableEq

/-- The constraint list exactly as `sdp.py` lines 33-42 builds it: the three
global constraints, then for `i in range(1,n)` and `j in range(1,n)` the two
indexed constraints appended in loop order. -/
def constraintList (n : ℕ) : List Constr :=
  [Constr.psdG, Constr.d2Nonneg, Constr.distLe] ++
    (List.range' 1 (n - 1)).flatMap fun i =>
      (List.range' 1 (n - 1)).flatMap fun j =>
        [Constr.d2MulGe i j, Constr.gramEq i j]

/-- The cvxpy PSD property of an `m × m` matrix variable (the `PSD=True`
declaration and the constraint `G >> 0`): symmetric on the declared shape
with a nonnegative quadratic form. -/
def IsPSD [LinearOrderedField K] (m : ℕ) (G : ℕ → ℕ → K) : Prop :=
  (∀ i, i < m → ∀ j, j < m → G i j = G j i) ∧
    ∀ x : ℕ → K, 0 ≤ ∑ i ∈ Finset.range m, ∑ j ∈ Finset.range m, x i * G i j * x j

/-- Satisfaction of one constraint of the formulated problem at an
assignment `v` of the decision variables, for problem size `n` and squared
distance matrix `dsq`.  Each case is the direct transcription of the
corresponding cvxpy expression of `sdp.py` lines 33-42. -/
def Constr.holds [LinearOrderedField K] (n : ℕ) (dsq : ℕ → ℕ → K) (v : Vars K) :
    Constr → Prop
  | Constr.psdG => IsPSD (n - 1) v.G
  | Constr.d2Nonneg => 0 ≤ v.D2
  | Constr.distLe => ∀ i j, i < n → j < n → dsq i j ≤ v.delta i j
  | Constr.d2MulGe i j => v.D2 * dsq i j ≥ v.delta i j
  | Constr.gramEq i j =>
      v.G (i - 1) (j - 1) = 1 / 2 * (v.delta 0 i + v.delta 0 j - v.delta i j)

/-- Objective sense of a cvxpy problem; `sdp.py` line 45 uses
`cp.Minimize(D2)`. -/
inductive Sense : Type where
  | minimize : Sense
  | maximize : Sense
deriving DecidableEq

/-- The formulated optimization problem handed to `prob.solve()`:
size, squared distance matrix, constraint list, objective sense and
objective function (`sdp.py` lines 45-47). -/
structure Problem (K : Type) where
  n : ℕ
  dsq : ℕ → ℕ → K
  constraints : List Constr
  sense : Sense
  objective : Vars K → K

/-- The SDP formulator of `sdp.py` lines 28-47 applied to an already-built
squared distance matrix. -/
def mkProblem (n : ℕ) (dsq : ℕ → ℕ → K) : Problem K :=
  { n := n, dsq := dsq, constraints := constraintList n,
    sense := Sense.minimize, objective := fun v => v.D2 }

/-- Builder plus formulator: the whole problem-construction phase of
`optimize_sdp` (`sdp.py` lines 22-47). -/
def formulate [LinearOrderedField K] (n : ℕ) (dist_func : ℕ → ℕ → α → K)
    (dist_arg : α) : Problem K :=
  mkProblem n (dist_matrix_sq n dist_func dist_arg)

/-- Feasibility of a variable assignment for the formulated problem: the
`PSD=True` domain declaration of the variable `G` (`sdp.py` line 29)
together with every constraint of the constraint list. -/
def Feasible [LinearOrderedField K] (n : ℕ) (dsq : ℕ → ℕ → K) (v : Vars K) : Prop :=
  IsPSD (n - 1) v.G ∧ ∀ c ∈ constraintList n, Constr.holds n dsq v c

/-- Outcome of the external solver invocation `prob.solve()`: the cvxpy
status string and the `.value` attributes of the three variables, which are
`None` (here `Option.none`) when the solver assigns no value. -/
structure SolveOutcome (K : Type) where
  status : String
  D2value : Option K
  Gvalue : Option (ℕ → ℕ → K)
  deltaValue : Option (ℕ → ℕ → K)

/-- Python exceptions that the body of `optimize_sdp` can raise:
`valueError` models the library rejecting the negative variable dimension
`n-1 = -1` when `n = 0`, and `typeError` models `np.sqrt(None)` when the
solver assigned no value to `D2`. -/
inductive PyError : Type where
  | valueError : PyError
  | typeError : PyError
deriving DecidableEq

/-- Result of `np.sqrt` on a scalar: `sqrtOf x` denotes the real square
root `√x` of a nonnegative `x`, while a negative argument yields `nan`
(numpy emits a RuntimeWarning, not an exception, and returns NaN). -/
inductive SqrtVal (K : Type) where
  | sqrtOf : K → SqrtVal K
  | nan : SqrtVal K
deriving DecidableEq

/-- Scalar `np.sqrt` as used on `D2.value` in `sdp.py` line 52. -/
def npSqrt [LinearOrderedField K] (x : K) : SqrtVal K :=
  if x < 0 then SqrtVal.nan else SqrtVal.sqrtOf x

/-- The value `[status, D, G, delta]` returned by `sdp.py` line 56, with the
four components in that order. -/
structure PyResult (K : Type) where
  status : String
  D : SqrtVal K
  G : Option (ℕ → ℕ → K)
  delta : Option (ℕ → ℕ → K)

/-- The whole of `optimize_sdp` (`sdp.py` lines 11-56).  The external solver
is passed in as a function of a verbosity flag and the formulated problem.
Control flow transcribed from the source: build the squared distance matrix;
create the variables, where `G = cp.Variable((n-1,n-1), PSD=True)` raises a
library ValueError when `n - 1` is negative; build constraints and objective;
call `prob.solve()` with NO arguments, so the solver always receives the
default `verbose=False` whatever the `verbose` parameter was; finally take
`D = np.sqrt(D2.value)` (a TypeError when the value is `None`) and return
`[status, D, G.value, delta.value]`. -/
def optimize_sdp [LinearOrderedField K] (n : ℕ) (dist_func : ℕ → ℕ → α → K)
    (dist_arg : α) (verbose : Bool)
    (solver : Bool → Problem K → SolveOutcome K) : Except PyError (PyResult K) :=
  if (n : ℤ) - 1 < 0 then
    Except.error PyError.valueError
  else
    match (solver false (formulate n dist_func dist_arg)).D2value with
    | Option.none => Except.error PyError.typeError
    | Option.some d2 =>
        Except.ok
          { status := (solver false (formulate n dist_func dist_arg)).status,
            D := npSqrt d2,
            G := (solver false (formulate n dist_func dist_arg)).Gvalue,
            delta := (solver false (formulate n dist_func dist_arg)).deltaValue }

/-! Helper lemmas on the builder and the constraint list. -/

lemma mem_oracleCalls (n : ℕ) (p : ℕ × ℕ) :
    p ∈ oracleCalls n ↔ p.1 < n ∧ p.2 < n := by
  constructor
  · intro h
    simp only [oracleCalls, List.mem_flatMap, List.mem_map, List.mem_range] at h
    obtain ⟨i, hi, j, hj, rfl⟩ := h
    exact ⟨hi, hj⟩
  · intro h
    simp only [oracleCalls, List.mem_flatMap, List.mem_map, List.mem_range]
    exact ⟨p.1, h.1, p.2, h.2, rfl⟩

lemma length_oracleCalls (n : ℕ) : (oracleCalls n).length = n ^ 2 := by
  rw [oracleCalls, List.length_flatMap]
  simp [Function.comp_def, List.map_const', List.sum_replicate, pow_two,
    smul_eq_mul]

lemma foldl_fillEntry [LinearOrderedField K] (dist_func : ℕ → ℕ → α → K)
    (dist_arg : α) (l : List (ℕ × ℕ)) (m : ℕ → ℕ → K) (i j : ℕ) :
    l.foldl (fillEntry dist_func dist_arg) m i j =
      if (i, j) ∈ l then (dist_func i j dist_arg) ^ 2 else m i j := by
  induction l generalizing m with
  | nil => simp
  | cons p l ih =>
    rw [List.foldl_cons, ih]
    by_cases hl : (i, j) ∈ l
    · simp [hl]
    · by_cases hp : (i, j) = p
      · obtain ⟨i, j⟩ := p
        obtain ⟨rfl, rfl⟩ := Prod.mk.injEq .. ▸ hp
        simp [hl, fillEntry]
      · have h1 : ¬(i = p.1 ∧ j = p.2) := by
          intro hc
          exact hp (Prod.ext hc.1 hc.2)
        simp [hl, hp, fillEntry, h1]

lemma dist_matrix_sq_spec [LinearOrderedField K] (n : ℕ)
    (dist_func : ℕ → ℕ → α → K) (dist_arg : α) (i j : ℕ) :
    dist_matrix_sq n dist_func dist_arg i j =
      if i < n ∧ j < n then (dist_func i j dist_arg) ^ 2 else 0 := by
  rw [dist_matrix_sq, foldl_fillEntry]
  by_cases h : i < n ∧ j < n
  · rw [if_pos ((mem_oracleCalls n (i, j)).mpr h), if_pos h]
  · rw [if_neg (fun hc => h ((mem_oracleCalls n (i, j)).mp hc)), if_neg h]

lemma mem_constraintList (n : ℕ) (c : Constr) :
    c ∈ constraintList n ↔
      c = Constr.psdG ∨ c = Constr.d2Nonneg ∨ c = Constr.distLe ∨
        ∃ i j, (1 ≤ i ∧ i < n) ∧ (1 ≤ j ∧ j < n) ∧
          (c = Constr.d2MulGe i j ∨ c = Constr.gramEq i j) := by
  simp only [constraintList, List.mem_append, List.mem_cons, List.mem_flatMap,
    List.mem_range'_1, List.not_mem_nil, or_false]
  constructor
  · rintro ((rfl | rfl | rfl) | ⟨i, ⟨hi1, hi2⟩, j, ⟨hj1, hj2⟩, h⟩)
    · exact Or.inl rfl
    · exact Or.inr (Or.inl rfl)
    · exact Or.inr (Or.inr (Or.inl rfl))
    · refine Or.inr (Or.inr (Or.inr ⟨i, j, ⟨hi1, by omega⟩, ⟨hj1, by omega⟩, h⟩))
  · rintro (rfl | rfl | rfl | ⟨i, j, ⟨hi1, hi2⟩, ⟨hj1, hj2⟩, h⟩)
    · exact Or.inl (Or.inl rfl)
    · exact Or.inl (Or.inr (Or.inl rfl))
    · exact Or.inl (Or.inr (Or.inr rfl))
    · exact Or.inr ⟨i, ⟨hi1, by omega⟩, j, ⟨hj1, by omega⟩, h⟩

/-! Concrete instances used by counterexamples and witnesses. -/

/-- Example distance oracle: the 0/1 metric `d(i,j) = 0` for `i = j` and `1`
otherwise, ignoring the auxiliary argument. -/
def dex : ℕ → ℕ → Unit → ℚ := fun i j _ => if i = j then 0 else 1

/-- The all-zero matrix, used as a concrete solver payload. -/
def zf : ℕ → ℕ → ℚ := fun _ _ => 0

/-- A solver run that reports infeasibility: per cvxpy semantics every
variable keeps `value = None`. -/
def infSolver : Bool → Problem ℚ → SolveOutcome ℚ := fun _ _ =>
  { status := "infeasible", D2value := Option.none,
    Gvalue := Option.none, deltaValue := Option.none }

/-- A solver run that reports optimality with all values assigned and
optimal objective `0`. -/
def okSolver : Bool → Problem ℚ → SolveOutcome ℚ := fun _ _ =>
  { status := "optimal", D2value := Option.some 0,
    Gvalue := Option.some zf, deltaValue := Option.some zf }

/-- A solver run that reports optimality with optimal objective `4`. -/
def sqrtSolver : Bool → Problem ℚ → SolveOutcome ℚ := fun _ _ =>
  { status := "optimal", D2value := Option.some 4,
    Gvalue := Option.some zf, deltaValue := Option.some zf }

/-- A solver run returning a (slightly) negative optimal value for `D2`,
as interior-point solvers can do within numerical tolerance. -/
def negSolver : Bool → Problem ℚ → SolveOutcome ℚ := fun _ _ =>
  { status := "optimal", D2value := Option.some (-1),
    Gvalue := Option.some zf, deltaValue := Option.some zf }

/-- A solver whose reported status records the verbosity flag it actually
received, used to observe which flag `optimize_sdp` forwards. -/
def probeSolver : Bool → Problem ℚ → SolveOutcome ℚ := fun flag _ =>
  { status := if flag then "saw_verbose_true" else "saw_verbose_false",
    D2value := Option.some 0, Gvalue := Option.none, deltaValue := Option.none }

/-- A feasible point for the problem formulated from `dex` at `n = 3`:
`delta` is the 0/1 squared-distance pattern itself, `G` the Gram matrix of
an equilateral triangle with unit side, `D2 = 1`. -/
def vex3 : Vars ℚ :=
  { delta := fun i j => if i = j then 0 else 1,
    G := fun i j => if i = j then 1 else 1 / 2,
    D2 := 1 }

/-- A feasible point for the problem formulated from `dex` at `n = 2` whose
slack matrix is NOT symmetric in row/column `0`: `delta[0,1] = 1` but
`delta[1,0] = 2`. -/
def wex : Vars ℚ :=
  { delta := fun i j =>
      if i = 0 ∧ j = 1 then 1 else if i = 1 ∧ j = 0 then 2 else 0,
    G := fun _ _ => 1,
    D2 := 1 }

lemma vex3_feasible : Feasible 3 (dist_matrix_sq 3 dex ()) vex3 := by
  have hpsd : IsPSD 2 vex3.G := by
    constructor
    · intro i hi j hj
      by_cases h : i = j
      · rw [h]
      · show (if i = j then (1 : ℚ) else 1 / 2) = if j = i then (1 : ℚ) else 1 / 2
        rw [if_neg h, if_neg (fun hc => h hc.symm)]
    · intro x
      have h : ∑ i ∈ Finset.range 2, ∑ j ∈ Finset.range 2,
          x i * vex3.G i j * x j =
          (x 0 + 1 / 2 * x 1) ^ 2 + 3 / 4 * x 1 ^ 2 := by
        simp only [Finset.sum_range_succ, Finset.sum_range_zero, vex3]
        norm_num
        ring
      rw [h]
      positivity
  refine ⟨hpsd, ?_⟩
  intro c hc
  have hlist : constraintList 3 =
      [Constr.psdG, Constr.d2Nonneg, Constr.distLe,
       Constr.d2MulGe 1 1, Constr.gramEq 1 1, Constr.d2MulGe 1 2,
       Constr.gramEq 1 2, Constr.d2MulGe 2 1, Constr.gramEq 2 1,
       Constr.d2MulGe 2 2, Constr.gramEq 2 2] := by decide
  rw [hlist] at hc
  simp only [List.mem_cons, List.not_mem_nil, or_false] at hc
  rcases hc with rfl | rfl | rfl | rfl | rfl | rfl | rfl | rfl | rfl | rfl | rfl
  · exact hpsd
  · exact zero_le_one
  · intro i j hi hj
    interval_cases i <;> interval_cases j <;>
      rw [dist_matrix_sq_spec] <;> norm_num [vex3, dex]
  · show vex3.D2 * dist_matrix_sq 3 dex () 1 1 ≥ vex3.delta 1 1
    rw [dist_matrix_sq_spec]
    norm_num [vex3, dex]
  · show vex3.G 0 0 = 1 / 2 * (vex3.delta 0 1 + vex3.delta 0 1 - vex3.delta 1 1)
    norm_num [vex3]
  · show vex3.D2 * dist_matrix_sq 3 dex () 1 2 ≥ vex3.delta 1 2
    rw [dist_matrix_sq_spec]
    norm_num [vex3, dex]
  · show vex3.G 0 1 = 1 / 2 * (vex3.delta 0 1 + vex3.delta 0 2 - vex3.delta 1 2)
    norm_num [vex3]
  · show vex3.D2 * dist_matrix_sq 3 dex () 2 1 ≥ vex3.delta 2 1
    rw [dist_matrix_sq_spec]
    norm_num [vex3, dex]
  · show vex3.G 1 0 = 1 / 2 * (vex3.delta 0 2 + vex3.delta 0 1 - vex3.delta 2 1)
    norm_num [vex3]
  · show vex3.D2 * dist_matrix_sq 3 dex () 2 2 ≥ vex3.delta 2 2
    rw [dist_matrix_sq_spec]
    norm_num [vex3, dex]
  · show vex3.G 1 1 = 1 / 2 * (vex3.delta 0 2 + vex3.delta 0 2 - vex3.delta 2 2)
    norm_num [vex3]

lemma wex_feasible : Feasible 2 (dist_matrix_sq 2 dex ()) wex := by
  have hpsd : IsPSD 1 wex.G := by
    constructor
    · intro i hi j hj
      rfl
    · intro x
      have h : ∑ i ∈ Finset.range 1, ∑ j ∈ Finset.range 1,
          x i * wex.G i j * x j = x 0 * x 0 := by
        simp [wex]
      rw [h]
      exact mul_self_nonneg (x 0)
  refine ⟨hpsd, ?_⟩
  intro c hc
  have hlist : constraintList 2 =
      [Constr.psdG, Constr.d2Nonneg, Constr.distLe,
       Constr.d2MulGe 1 1, Constr.gramEq 1 1] := by decide
  rw [hlist] at hc
  simp only [List.mem_cons, List.not_mem_nil, or_false] at hc
  rcases hc with rfl | rfl | rfl | rfl | rfl
  · exact hpsd
  · exact zero_le_one
  · intro i j hi hj
    interval_cases i <;> interval_cases j <;>
      rw [dist_matrix_sq_spec] <;> norm_num [wex, dex]
  · show wex.D2 * dist_matrix_sq 2 dex () 1 1 ≥ wex.delta 1 1
    rw [dist_matrix_sq_spec]
    norm_num [wex, dex]
  · show wex.G 0 0 = 1 / 2 * (wex.delta 0 1 + wex.delta 0 1 - wex.delta 1 1)
    norm_num [wex]

/-! Claim theorems. -/

/-- C2: for every `n ≥ 1` and every distance oracle, the builder produces an
`n × n` matrix whose entry `(i, j)` equals `dist_func i j dist_arg` squared
for every ordered pair `(i, j)` with `i, j < n`, including the diagonal, and
the builder loop performs exactly `n ^ 2` oracle calls, one per ordered
pair. -/
theorem builder_squares_all_pairs [LinearOrderedField K] (n : ℕ) (hn : 1 ≤ n)
    (dist_func : ℕ → ℕ → α → K) (dist_arg : α) :
    (∀ i j, i < n → j < n →
        dist_matrix_sq n dist_func dist_arg i j = (dist_func i j dist_arg) ^ 2) ∧
      (oracleCalls n).length = n ^ 2 ∧
      ∀ p : ℕ × ℕ, p ∈ oracleCalls n ↔ p.1 < n ∧ p.2 < n := by
  refine ⟨?_, length_oracleCalls n, mem_oracleCalls n⟩
  intro i j hi hj
  rw [dist_matrix_sq_spec, if_pos ⟨hi, hj⟩]

/-- Witness for `builder_squares_all_pairs` at `n = 2` with the 0/1 metric
oracle. -/
theorem builder_squares_all_pairs_witness :
    (1 ≤ 2) ∧
      ((∀ i j, i < 2 → j < 2 →
          dist_matrix_sq 2 dex () i j = (dex i j ()) ^ 2) ∧
        (oracleCalls 2).length = 2 ^ 2 ∧
        ∀ p : ℕ × ℕ, p ∈ oracleCalls 2 ↔ p.1 < 2 ∧ p.2 < 2) :=
  ⟨by norm_num, builder_squares_all_pairs 2 (by norm_num) dex ()⟩

/-- C10: the formulated problem depends only on the squares of the oracle
values: two oracles agreeing squarewise on `[0,n) × [0,n)` (in particular
oracles differing only in sign) give the identical problem and the identical
observable behavior of `optimize_sdp`; negative oracle outputs are silently
accepted, no sign check exists anywhere on this path. -/
theorem problem_depends_only_on_squares [LinearOrderedField K] (n : ℕ)
    (f g : ℕ → ℕ → α → K) (a : α)
    (h : ∀ i j, i < n → j < n → (f i j a) ^ 2 = (g i j a) ^ 2) :
    formulate n f a = formulate n g a ∧
      ∀ (verbose : Bool) (solver : Bool → Problem K → SolveOutcome K),
        optimize_sdp n f a verbose solver = optimize_sdp n g a verbose solver := by
  have hd : dist_matrix_sq n f a = dist_matrix_sq n g a := by
    funext i j
    rw [dist_matrix_sq_spec, dist_matrix_sq_spec]
    by_cases hij : i < n ∧ j < n
    · rw [if_pos hij, if_pos hij, h i j hij.1 hij.2]
    · rw [if_neg hij, if_neg hij]
  have hfg : formulate n f a = formulate n g a := by
    rw [formulate, formulate, hd]
  refine ⟨hfg, ?_⟩
  intro verbose solver
  simp only [optimize_sdp, hfg]

/-- Witness for `problem_depends_only_on_squares`: the constant oracle `1`
and the constant oracle `-1` agree squarewise, so at `n = 2` both the
formulated problem and the call result coincide. -/
theorem problem_depends_only_on_squares_witness :
    (∀ i j, i < 2 → j < 2 →
        ((fun _ _ (_ : Unit) => (1 : ℚ)) i j ()) ^ 2 =
          ((fun _ _ (_ : Unit) => (-1 : ℚ)) i j ()) ^ 2) ∧
      (formulate 2 (fun _ _ (_ : Unit) => (1 : ℚ)) () =
          formulate 2 (fun _ _ (_ : Unit) => (-1 : ℚ)) () ∧
        ∀ (verbose : Bool) (solver : Bool → Problem ℚ → SolveOutcome ℚ),
          optimize_sdp 2 (fun _ _ (_ : Unit) => (1 : ℚ)) () verbose solver =
            optimize_sdp 2 (fun _ _ (_ : Unit) => (-1 : ℚ)) () verbose solver) :=
  ⟨by norm_num,
    problem_depends_only_on_squares 2 _ _ () (by norm_num)⟩

/-- C1: for every `n ≥ 2` and squared distance matrix, the formulator
produces the minimize-`D2` objective, its constraint list consists exactly
of `G` PSD, `D2 ≥ 0`, the elementwise bound `dsq ≤ delta` over
`[0,n) × [0,n)`, and for every `(i,j)` in `[1,n) × [1,n)` the pair
`D2 * dsq[i,j] ≥ delta[i,j]` and
`G[i-1,j-1] = 1/2 * (delta[0,i] + delta[0,j] - delta[i,j])`; and an
assignment satisfies the whole list exactly when it satisfies that
conjunction. -/
theorem formulator_constructs_exact_problem [LinearOrderedField K] (n : ℕ)
    (hn : 2 ≤ n) (dsq : ℕ → ℕ → K) :
    ((mkProblem n dsq).sense = Sense.minimize ∧
        ∀ v : Vars K, (mkProblem n dsq).objective v = v.D2) ∧
      (∀ c : Constr, c ∈ (mkProblem n dsq).constraints ↔
          c = Constr.psdG ∨ c = Constr.d2Nonneg ∨ c = Constr.distLe ∨
            ∃ i j, (1 ≤ i ∧ i < n) ∧ (1 ≤ j ∧ j < n) ∧
              (c = Constr.d2MulGe i j ∨ c = Constr.gramEq i j)) ∧
      ∀ v : Vars K,
        (∀ c ∈ (mkProblem n dsq).constraints, Constr.holds n dsq v c) ↔
          IsPSD (n - 1) v.G ∧ 0 ≤ v.D2 ∧
            (∀ i j, i < n → j < n → dsq i j ≤ v.delta i j) ∧
            ∀ i j, 1 ≤ i → i < n → 1 ≤ j → j < n →
              v.D2 * dsq i j ≥ v.delta i j ∧
                v.G (i - 1) (j - 1) =
                  1 / 2 * (v.delta 0 i + v.delta 0 j - v.delta i j) := by
  refine ⟨⟨rfl, fun v => rfl⟩, fun c => mem_constraintList n c, fun v => ?_⟩
  constructor
  · intro h
    refine ⟨h Constr.psdG ((mem_constraintList n _).mpr (Or.inl rfl)),
      h Constr.d2Nonneg ((mem_constraintList n _).mpr (Or.inr (Or.inl rfl))),
      h Constr.distLe ((mem_constraintList n _).mpr (Or.inr (Or.inr (Or.inl rfl)))),
      ?_⟩
    intro i j hi1 hi2 hj1 hj2
    exact ⟨h (Constr.d2MulGe i j) ((mem_constraintList n _).mpr
        (Or.inr (Or.inr (Or.inr ⟨i, j, ⟨hi1, hi2⟩, ⟨hj1, hj2⟩, Or.inl rfl⟩)))),
      h (Constr.gramEq i j) ((mem_constraintList n _).mpr
        (Or.inr (Or.inr (Or.inr ⟨i, j, ⟨hi1, hi2⟩, ⟨hj1, hj2⟩, Or.inr rfl⟩))))⟩
  · rintro ⟨hpsd, hd2, hdist, hij⟩ c hc
    rw [show (mkProblem n dsq).constraints = constraintList n from rfl,
      mem_constraintList] at hc
    rcases hc with rfl | rfl | rfl | ⟨i, j, ⟨hi1, hi2⟩, ⟨hj1, hj2⟩, rfl | rfl⟩
    · exact hpsd
    · exact hd2
    · exact hdist
    · exact (hij i j hi1 hi2 hj1 hj2).1
    · exact (hij i j hi1 hi2 hj1 hj2).2

/-- Witness for `formulator_constructs_exact_problem` at `n = 2` with the
zero squared-distance matrix. -/
theorem formulator_constructs_exact_problem_witness :
    (2 ≤ 2) ∧
      (((mkProblem 2 zf).sense = Sense.minimize ∧
          ∀ v : Vars ℚ, (mkProblem 2 zf).objective v = v.D2) ∧
        (∀ c : Constr, c ∈ (mkProblem 2 zf).constraints ↔
            c = Constr.psdG ∨ c = Constr.d2Nonneg ∨ c = Constr.distLe ∨
              ∃ i j, (1 ≤ i ∧ i < 2) ∧ (1 ≤ j ∧ j < 2) ∧
                (c = Constr.d2MulGe i j ∨ c = Constr.gramEq i j)) ∧
        ∀ v : Vars ℚ,
          (∀ c ∈ (mkProblem 2 zf).constraints, Constr.holds 2 zf v c) ↔
            IsPSD (2 - 1) v.G ∧ 0 ≤ v.D2 ∧
              (∀ i j, i < 2 → j < 2 → zf i j ≤ v.delta i j) ∧
              ∀ i j, 1 ≤ i → i < 2 → 1 ≤ j → j < 2 →
                v.D2 * zf i j ≥ v.delta i j ∧
                  v.G (i - 1) (j - 1) =
                    1 / 2 * (v.delta 0 i + v.delta 0 j - v.delta i j)) :=
  ⟨by norm_num, formulator_constructs_exact_problem 2 (by norm_num) zf⟩

/-- C8: at every feasible point, the sub-block of `delta` indexed by
`[1,n) × [1,n)` is symmetric, forced by the declared symmetry of the PSD
variable `G` and the Gram equality constraints for both orderings of the
index pair; entries in row `0` and column `0` of `delta` are not so
constrained: a feasible point exists with `delta[0,1] ≠ delta[1,0]`. -/
theorem delta_subblock_symmetric [LinearOrderedField K] (n : ℕ)
    (dsq : ℕ → ℕ → K) (v : Vars K) (hf : Feasible n dsq v) :
    (∀ i j, 1 ≤ i → i < n → 1 ≤ j → j < n → v.delta i j = v.delta j i) ∧
      ∃ (dsq0 : ℕ → ℕ → ℚ) (w : Vars ℚ),
        Feasible 2 dsq0 w ∧ w.delta 0 1 ≠ w.delta 1 0 := by
  obtain ⟨hpsd, hc⟩ := hf
  constructor
  · intro i j hi1 hi2 hj1 hj2
    have h1 : v.G (i - 1) (j - 1) =
        1 / 2 * (v.delta 0 i + v.delta 0 j - v.delta i j) :=
      hc (Constr.gramEq i j) ((mem_constraintList n _).mpr
        (Or.inr (Or.inr (Or.inr ⟨i, j, ⟨hi1, hi2⟩, ⟨hj1, hj2⟩, Or.inr rfl⟩))))
    have h2 : v.G (j - 1) (i - 1) =
        1 / 2 * (v.delta 0 j + v.delta 0 i - v.delta j i) :=
      hc (Constr.gramEq j i) ((mem_constraintList n _).mpr
        (Or.inr (Or.inr (Or.inr ⟨j, i, ⟨hj1, hj2⟩, ⟨hi1, hi2⟩, Or.inr rfl⟩))))
    have hsym : v.G (i - 1) (j - 1) = v.G (j - 1) (i - 1) :=
      hpsd.1 (i - 1) (by omega) (j - 1) (by omega)
    rw [h1, h2] at hsym
    linarith
  · exact ⟨dist_matrix_sq 2 dex (), wex, wex_feasible, by norm_num [wex]⟩

/-- Witness for `delta_subblock_symmetric`: a concrete feasible point at
`n = 3`, where the theorem yields `delta[1,2] = delta[2,1]`. -/
theorem delta_subblock_symmetric_witness :
    Feasible 3 (dist_matrix_sq 3 dex ()) vex3 ∧
      vex3.delta 1 2 = vex3.delta 2 1 :=
  ⟨vex3_feasible,
    (delta_subblock_symmetric 3 (dist_matrix_sq 3 dex ()) vex3 vex3_feasible).1
      1 2 (by norm_num) (by norm_num) (by norm_num) (by norm_num)⟩

/-- C9: for every oracle with zero diagonal, at every feasible point of the
problem formulated from it, `delta[i,i] = 0` for every `i` in `[1,n)`: the
elementwise constraint forces `delta[i,i] ≥ 0` and the constraint
`D2 * dsq[i,i] ≥ delta[i,i]` with `dsq[i,i] = 0` forces `delta[i,i] ≤ 0`. -/
theorem delta_diag_zero [LinearOrderedField K] (n : ℕ)
    (dist_func : ℕ → ℕ → α → K) (dist_arg : α)
    (hdiag : ∀ i, dist_func i i dist_arg = 0) (v : Vars K)
    (hf : Feasible n (dist_matrix_sq n dist_func dist_arg) v) :
    ∀ i, 1 ≤ i → i < n → v.delta i i = 0 := by
  obtain ⟨hpsd, hc⟩ := hf
  intro i hi1 hi2
  have hdsq : dist_matrix_sq n dist_func dist_arg i i = 0 := by
    rw [dist_matrix_sq_spec, if_pos ⟨hi2, hi2⟩, hdiag]
    ring
  have hlow := hc Constr.distLe ((mem_constraintList n _).mpr
      (Or.inr (Or.inr (Or.inl rfl)))) i i hi2 hi2
  have hup : v.D2 * dist_matrix_sq n dist_func dist_arg i i ≥ v.delta i i :=
    hc (Constr.d2MulGe i i) ((mem_constraintList n _).mpr
      (Or.inr (Or.inr (Or.inr ⟨i, i, ⟨hi1, hi2⟩, ⟨hi1, hi2⟩, Or.inl rfl⟩))))
  rw [hdsq] at hlow hup
  rw [mul_zero] at hup
  linarith

/-- Witness for `delta_diag_zero`: the 0/1 metric oracle has zero diagonal
and at the concrete feasible point `vex3` the theorem yields
`delta[1,1] = 0`. -/
theorem delta_diag_zero_witness :
    (∀ i, dex i i () = 0) ∧
      Feasible 3 (dist_matrix_sq 3 dex ()) vex3 ∧ vex3.delta 1 1 = 0 :=
  ⟨fun i => by simp [dex], vex3_feasible,
    delta_diag_zero 3 dex () (fun i => by simp [dex]) vex3 vex3_feasible 1
      (by norm_num) (by norm_num)⟩

/-- C7: whenever the solver reports status `"optimal"` with all values
assigned and a nonnegative optimal value for `D2`, `optimize_sdp` returns
the four components in the order status, `D`, `G`, `delta`, with `D` the
square root of the optimal `D2` value and `G`, `delta` the numeric values
of the corresponding variables. -/
theorem optimal_extraction [LinearOrderedField K] (n : ℕ) (hn : 1 ≤ n)
    (dist_func : ℕ → ℕ → α → K) (dist_arg : α) (verbose : Bool)
    (solver : Bool → Problem K → SolveOutcome K) (d2 : K) (gv dv : ℕ → ℕ → K)
    (hstat : (solver false (formulate n dist_func dist_arg)).status = "optimal")
    (hd2 : (solver false (formulate n dist_func dist_arg)).D2value =
      Option.some d2)
    (hpos : 0 ≤ d2)
    (hg : (solver false (formulate n dist_func dist_arg)).Gvalue =
      Option.some gv)
    (hdl : (solver false (formulate n dist_func dist_arg)).deltaValue =
      Option.some dv) :
    optimize_sdp n dist_func dist_arg verbose solver =
      Except.ok { status := "optimal", D := SqrtVal.sqrtOf d2,
                  G := Option.some gv, delta := Option.some dv } := by
  have h0 : ¬((n : ℤ) - 1 < 0) := by omega
  unfold optimize_sdp
  rw [if_neg h0, hd2]
  simp only [hstat, hg, hdl, npSqrt, if_neg (not_lt.mpr hpos)]

/-- Witness for `optimal_extraction`: a solver reporting optimal value `4`
for `D2` yields the result with `D = √4`. -/
theorem optimal_extraction_witness :
    (sqrtSolver false (formulate 2 dex ())).status = "optimal" ∧
      (sqrtSolver false (formulate 2 dex ())).D2value = Option.some 4 ∧
      (0 : ℚ) ≤ 4 ∧
      optimize_sdp 2 dex () false sqrtSolver =
        Except.ok { status := "optimal", D := SqrtVal.sqrtOf 4,
                    G := Option.some zf, delta := Option.some zf } :=
  ⟨rfl, rfl, by norm_num,
    optimal_extraction 2 (by norm_num) dex () false sqrtSolver 4 zf zf rfl rfl
      (by norm_num) rfl rfl⟩

/-- Counterexample to C3 as stated: with a solver run reporting
`"infeasible"` (so that, per cvxpy semantics, every `value` is `None`), the
call does NOT return the result tuple: `np.sqrt(None)` raises a TypeError
and `optimize_sdp` crashes. -/
theorem non_optimal_crash_counterexample :
    optimize_sdp 2 dex () false infSolver = Except.error PyError.typeError := rfl

/-- C3 amended: whenever the solver reports infeasible or unbounded, the
variable values are `None`, so `optimize_sdp` raises a TypeError at the
`np.sqrt(D2.value)` step and the caller never receives the result tuple. -/
theorem non_optimal_value_none_crashes [LinearOrderedField K] (n : ℕ)
    (hn : 1 ≤ n) (dist_func : ℕ → ℕ → α → K) (dist_arg : α) (verbose : Bool)
    (solver : Bool → Problem K → SolveOutcome K)
    (hstat : (solver false (formulate n dist_func dist_arg)).status =
        "infeasible" ∨
      (solver false (formulate n dist_func dist_arg)).status = "unbounded")
    (hnone : (solver false (formulate n dist_func dist_arg)).D2value =
      Option.none) :
    optimize_sdp n dist_func dist_arg verbose solver =
      Except.error PyError.typeError := by
  have h0 : ¬((n : ℤ) - 1 < 0) := by omega
  unfold optimize_sdp
  rw [if_neg h0, hnone]

/-- Witness for `non_optimal_value_none_crashes` at the concrete
infeasible-reporting solver. -/
theorem non_optimal_value_none_crashes_witness :
    ((infSolver false (formulate 2 dex ())).status = "infeasible" ∨
        (infSolver false (formulate 2 dex ())).status = "unbounded") ∧
      (infSolver false (formulate 2 dex ())).D2value = Option.none ∧
      optimize_sdp 2 dex () false infSolver = Except.error PyError.typeError :=
  ⟨Or.inl rfl, rfl,
    non_optimal_value_none_crashes 2 (by norm_num) dex () false infSolver
      (Or.inl rfl) rfl⟩

/-- Counterexample to C5 as stated: a solver returning the negative optimal
value `-1` for `D2` does NOT produce a solver-error status; the reported
status `"optimal"` is passed through unchanged and `D` becomes NaN. -/
theorem negative_d2_counterexample :
    optimize_sdp 2 dex () false negSolver =
      Except.ok { status := "optimal", D := SqrtVal.nan,
                  G := Option.some zf, delta := Option.some zf } := rfl

/-- C5 amended: if the solver returns a negative value for `D2`, the square
root step yields NaN (numpy emits a warning, not an exception, so indeed no
domain failure propagates), and the solver status is returned unchanged
rather than converted to a solver-error status. -/
theorem negative_d2_gives_nan [LinearOrderedField K] (n : ℕ) (hn : 1 ≤ n)
    (dist_func : ℕ → ℕ → α → K) (dist_arg : α) (verbose : Bool)
    (solver : Bool → Problem K → SolveOutcome K) (d2 : K)
    (hd2 : (solver false (formulate n dist_func dist_arg)).D2value =
      Option.some d2)
    (hneg : d2 < 0) :
    optimize_sdp n dist_func dist_arg verbose solver =
      Except.ok
        { status := (solver false (formulate n dist_func dist_arg)).status,
          D := SqrtVal.nan,
          G := (solver false (formulate n dist_func dist_arg)).Gvalue,
          delta := (solver false (formulate n dist_func dist_arg)).deltaValue } := by
  have h0 : ¬((n : ℤ) - 1 < 0) := by omega
  unfold optimize_sdp
  rw [if_neg h0, hd2]
  simp only [npSqrt, if_pos hneg]

/-- Witness for `negative_d2_gives_nan` at the concrete solver returning
`D2 = -1`. -/
theorem negative_d2_gives_nan_witness :
    (negSolver false (formulate 2 dex ())).D2value = Option.some (-1) ∧
      ((-1 : ℚ) < 0) ∧
      optimize_sdp 2 dex () false negSolver =
        Except.ok
          { status := (negSolver false (formulate 2 dex ())).status,
            D := SqrtVal.nan,
            G := (negSolver false (formulate 2 dex ())).Gvalue,
            delta := (negSolver false (formulate 2 dex ())).deltaValue } :=
  ⟨rfl, by norm_num,
    negative_d2_gives_nan 2 (by norm_num) dex () false negSolver (-1) rfl
      (by norm_num)⟩

/-- C6 is false of the code, contradicting the docstring of `optimize_sdp`:
the call `prob.solve()` passes no arguments, so the solver always receives
the default `verbose = false` — the result is independent of the `verbose`
parameter, and a solver that records which flag it received shows the
default flag even when `optimize_sdp` was called with `verbose = true`. -/
theorem verbose_not_forwarded :
    (∀ (n : ℕ) (dist_func : ℕ → ℕ → Unit → ℚ) (dist_arg : Unit)
        (solver : Bool → Problem ℚ → SolveOutcome ℚ),
        optimize_sdp n dist_func dist_arg true solver =
          optimize_sdp n dist_func dist_arg false solver) ∧
      optimize_sdp 2 dex () true probeSolver =
        Except.ok { status := "saw_verbose_false", D := SqrtVal.sqrtOf 0,
                    G := Option.none, delta := Option.none } :=
  ⟨fun n dist_func dist_arg solver => rfl, rfl⟩

/-- Counterexample to C4 as stated: at `n = 1` the call does not fail with
an input error; the degenerate problem is built, the solver is invoked and
its outcome is extracted and returned as usual. -/
theorem n1_runs_solver_counterexample :
    optimize_sdp 1 dex () false okSolver =
      Except.ok { status := "optimal", D := SqrtVal.sqrtOf 0,
                  G := Option.some zf, delta := Option.some zf } := rfl

/-- C4 amended: `optimize_sdp` performs no input validation.  For `n = 0`
the Gram variable is declared with the negative dimension `n - 1 = -1` and
the library raises a ValueError at variable creation (before any solver
invocation), not a descriptive input error of `optimize_sdp` itself; for
`n = 1` no error occurs at all: the index loops are empty, so the
degenerate problem carrying only the three global constraints is built, the
solver is invoked and its outcome is extracted as usual. -/
theorem degenerate_small_n [LinearOrderedField K] :
    (∀ (dist_func : ℕ → ℕ → α → K) (dist_arg : α) (verbose : Bool)
        (solver : Bool → Problem K → SolveOutcome K),
        optimize_sdp 0 dist_func dist_arg verbose solver =
          Except.error PyError.valueError) ∧
      constraintList 1 = [Constr.psdG, Constr.d2Nonneg, Constr.distLe] ∧
      ∀ (dist_func : ℕ → ℕ → α → K) (dist_arg : α) (verbose : Bool)
          (solver : Bool → Problem K → SolveOutcome K) (d2 : K),
          (solver false (formulate 1 dist_func dist_arg)).D2value =
            Option.some d2 →
          optimize_sdp 1 dist_func dist_arg verbose solver =
            Except.ok
              { status := (solver false (formulate 1 dist_func dist_arg)).status,
                D := npSqrt d2,
                G := (solver false (formulate 1 dist_func dist_arg)).Gvalue,
                delta :=
                  (solver false (formulate 1 dist_func dist_arg)).deltaValue } := by
  refine ⟨fun dist_func dist_arg verbose solver => rfl, by decide, ?_⟩
  intro dist_func dist_arg verbose solver d2 hd2
  unfold optimize_sdp
  rw [if_neg (by norm_num), hd2]

/-- Witness for `degenerate_small_n` at a concrete oracle and solver. -/
theorem degenerate_small_n_witness :
    optimize_sdp 0 dex () false okSolver = Except.error PyError.valueError ∧
      optimize_sdp 1 dex () false okSolver =
        Except.ok { status := "optimal", D := npSqrt 0,
                    G := Option.some zf, delta := Option.some zf } :=
  ⟨(degenerate_small_n).1 dex () false okSolver,
    (degenerate_small_n).2.2 dex () false okSolver 0 rfl⟩

end SDP
